import Mathlib

/-!
Shallow embedding of the satisfaction-survey dashboard (src/app.py) and proofs
of the specification claims about it.

The DataFrame loaded by `carregar_dados` is modelled as a `List SurveyResponse`,
one element per row, in row order.  Column operations of pandas become list
operations; `pd.crosstab` and `groupby` sort their group keys, `Series.mode`
returns the most frequent values in ascending order, and `isin` is membership.
-/

/-- One raw row returned by the store query `obter_todas_respostas`, in the
column order `ID, Setor, Material Faltando, Qual Material, Qualidade Serviço,
Mensagem, Data Registro` fixed at src/app.py lines 32-34.  The timestamp is kept
as raw text, to be parsed by the `pd.to_datetime` conversion of line 40. -/
structure RawRow where
  id : Nat
  setor : String
  materialFaltando : Bool
  qualMaterial : String
  qualidade : String
  mensagem : String
  dataRegistro : String
  deriving DecidableEq, Repr

/-- One row of the normalized frame: the boolean has been mapped to the text
markers of line 37 and the timestamp parsed to seconds. -/
structure SurveyResponse where
  id : Nat
  setor : String
  materialFaltando : String
  qualMaterial : String
  qualidade : String
  mensagem : String
  dataRegistro : Nat
  deriving DecidableEq, Repr

/-- Boolean-to-text map of line 37: `{True: 'Sim', False: 'Não'}`. -/
def mapBool (b : Bool) : String := if b then "Sim" else "Não"

/-- Timestamp parsing of one cell, abstracting `pd.to_datetime`: in this model a
cell parses exactly when it is a nonempty string of decimal digits, read as
seconds; any other text makes the conversion raise. -/
def parseTimestamp (s : String) : Option Nat :=
  if !s.data.isEmpty && s.data.all Char.isDigit then
    some (s.data.foldl (fun n c => 10 * n + (c.toNat - 48)) 0)
  else none

/-- Normalization of one row: the boolean map of line 37 and the timestamp parse
of line 40.  It fails (a raised exception, modelled as `none`) exactly when the
timestamp does not parse. -/
def normalizeRow (r : RawRow) : Option SurveyResponse :=
  (parseTimestamp r.dataRegistro).map fun t =>
    ⟨r.id, r.setor, mapBool r.materialFaltando, r.qualMaterial, r.qualidade,
      r.mensagem, t⟩

/-- Column-wise normalization: `pd.to_datetime` converts the whole column at
once, so a single unparsable cell fails the whole conversion. -/
def normalizeAll : List RawRow → Option (List SurveyResponse)
  | [] => some []
  | r :: rs =>
    match normalizeRow r, normalizeAll rs with
    | some x, some xs => some (x :: xs)
    | _, _ => none

/-- Body of `carregar_dados` (src/app.py lines 28-47): store-query outcome in,
frame out.  A store failure is caught by the `except` branch, which shows an
error message and returns an empty frame; an empty query result returns an empty
frame; a conversion failure inside the `try` is caught by the same `except` and
also yields an empty frame.  No error value ever reaches the caller. -/
def carregar_dados (query : Except String (List RawRow)) : List SurveyResponse :=
  match query with
  | Except.error _ => []
  | Except.ok [] => []
  | Except.ok rows =>
    match normalizeAll rows with
    | some df => df
    | none => []

/-- State of the `st.cache_data` cache after a reload (TTL expiry or an explicit
`st.cache_data.clear()`): the cache stores whatever `carregar_dados` returns,
wholesale replacing the previously cached value. -/
def cache_after_reload (_old : List SurveyResponse)
    (query : Except String (List RawRow)) : List SurveyResponse :=
  carregar_dados query

/-- Line 69: `total_respostas = len(df)`. -/
def total_respostas (df : List SurveyResponse) : Nat := df.length

/-- Line 73: `material_faltando = len(df[df['Material Faltando'] == 'Sim'])`. -/
def material_faltando (df : List SurveyResponse) : Nat :=
  (df.filter fun r => r.materialFaltando == "Sim").length

/-- Line 74: `(material_faltando / total_respostas) * 100 if total_respostas > 0
else 0`. -/
def percentual_falta (df : List SurveyResponse) : ℚ :=
  if 0 < total_respostas df then
    ((material_faltando df : ℚ) / (total_respostas df : ℚ)) * 100
  else 0

/-- Line 78: `satisfacao_boa = len(df[df['Qualidade Serviço'].isin(['Muito Bom',
'Bom'])])`. -/
def satisfacao_boa (df : List SurveyResponse) : Nat :=
  (df.filter fun r => r.qualidade == "Muito Bom" || r.qualidade == "Bom").length

/-- Line 79: `(satisfacao_boa / total_respostas) * 100 if total_respostas > 0
else 0`. -/
def percentual_satisfacao (df : List SurveyResponse) : ℚ :=
  if 0 < total_respostas df then
    ((satisfacao_boa df : ℚ) / (total_respostas df : ℚ)) * 100
  else 0

/-- Distinct values of a column in ascending lexicographic order: the row or
column index that `pd.crosstab` produces, since it sorts its group keys. -/
def crosstabKeys (col : List String) : List String :=
  (col.dedup).insertionSort (fun a b => a ≤ b)

/-- Row labels of `pd.crosstab(df['Setor'], df['Material Faltando'])`, line 130. -/
def material_setor_rows (df : List SurveyResponse) : List String :=
  crosstabKeys (df.map fun r => r.setor)

/-- Column labels of `pd.crosstab(df['Setor'], df['Qualidade Serviço'])`,
line 180. -/
def qualidade_setor_cols (df : List SurveyResponse) : List String :=
  crosstabKeys (df.map fun r => r.qualidade)

/-- First-seen order of the distinct values of a column, stated for comparison
with the order the spec asserts for the cross-tab keys. -/
def firstSeenKeys (col : List String) : List String :=
  col.foldl (fun acc x => if x ∈ acc then acc else acc ++ [x]) []

/-- Line 163: `df['Data Registro'].dt.date`, truncation of the timestamp to a
whole day. -/
def data_dia (r : SurveyResponse) : Nat := r.dataRegistro / 86400

/-- Lines 163-164: `df.groupby('Data').size().reset_index(name='Quantidade')` —
one (day, count) row per distinct day, keys sorted ascending (pandas `groupby`
sorts group keys by default). -/
def respostas_diarias (df : List SurveyResponse) : List (Nat × Nat) :=
  (((df.map data_dia).dedup).insertionSort (fun a b => a ≤ b)).map
    fun d => (d, (df.map data_dia).count d)

/-- The three filter widgets of lines 205-224: a sector multiselect, a quality
multiselect, and the material tri-state selectbox over
`['Todos', 'Sim', 'Não']`. -/
structure FilterSpec where
  setores_selecionados : List String
  qualidade_selecionada : List String
  material_selecionado : String
  deriving DecidableEq, Repr

/-- Lines 227-233: the two `isin` masks, then — only when the selectbox is not
`'Todos'` — the equality mask on the material column. -/
def df_filtrado (df : List SurveyResponse) (spec : FilterSpec) : List SurveyResponse :=
  let base := df.filter fun r =>
    decide (r.setor ∈ spec.setores_selecionados) &&
      decide (r.qualidade ∈ spec.qualidade_selecionada)
  if spec.material_selecionado ≠ "Todos" then
    base.filter fun r => r.materialFaltando == spec.material_selecionado
  else base

/-- The combined row predicate of lines 227-233 as a single mask. -/
def fullPred (spec : FilterSpec) (r : SurveyResponse) : Bool :=
  (decide (r.setor ∈ spec.setores_selecionados) &&
    decide (r.qualidade ∈ spec.qualidade_selecionada)) &&
  (spec.material_selecionado == "Todos" ||
    r.materialFaltando == spec.material_selecionado)

/-- Modal values of a column, ascending: `Series.mode()` returns every value of
maximal frequency, sorted in ascending order. -/
def series_mode (col : List String) : List String :=
  ((col.dedup).insertionSort (fun a b => a ≤ b)).filter
    fun x => decide (∀ y ∈ col, col.count y ≤ col.count x)

/-- Line 250: `df_filtrado['Qualidade Serviço'].mode()[0] if not
df_filtrado.empty else "N/A"`. -/
def media_qualidade (dff : List SurveyResponse) : String :=
  if dff.isEmpty then "N/A"
  else (series_mode (dff.map fun r => r.qualidade)).headD "N/A"

/-- Modelled from the spec: the rank of a rating in the fixed quality
enumeration (Very Good, Good, Average, Poor, Very Poor).  The source names only
the top two levels (`'Muito Bom', 'Bom'`, line 78); the remaining labels follow
the spec's enumeration order. -/
def qualityRank (q : String) : Nat :=
  if q = "Muito Bom" then 0
  else if q = "Bom" then 1
  else if q = "Regular" then 2
  else if q = "Ruim" then 3
  else if q = "Muito Ruim" then 4
  else 5

/-- Row constructor used by the concrete examples below. -/
def mkResp (i : Nat) (s mf q : String) (t : Nat) : SurveyResponse :=
  ⟨i, s, mf, "", q, "", t⟩

/-- Ten concrete rows: three with material missing, six rated in the top two
levels, spread over four days. -/
def exDf10 : List SurveyResponse :=
  [mkResp 1 "Cozinha" "Sim" "Muito Bom" 0,
   mkResp 2 "Cozinha" "Sim" "Muito Bom" 0,
   mkResp 3 "Almox" "Sim" "Muito Bom" 86400,
   mkResp 4 "Almox" "Não" "Muito Bom" 86400,
   mkResp 5 "Patio" "Não" "Bom" 86400,
   mkResp 6 "Patio" "Não" "Bom" 172800,
   mkResp 7 "Patio" "Não" "Regular" 172800,
   mkResp 8 "Cozinha" "Não" "Regular" 172800,
   mkResp 9 "Cozinha" "Não" "Regular" 259200,
   mkResp 10 "Almox" "Não" "Regular" 259200]

/-- Two rows whose ratings tie for the mode. -/
def exTie : List SurveyResponse :=
  [mkResp 1 "Cozinha" "Não" "Muito Bom" 0,
   mkResp 2 "Cozinha" "Não" "Bom" 0]

/-- Two rows whose first-seen sector order differs from sorted order. -/
def exOrder : List SurveyResponse :=
  [mkResp 1 "Cozinha" "Sim" "Muito Bom" 0,
   mkResp 2 "Almox" "Não" "Bom" 0]

/-- A raw row whose timestamp parses. -/
def goodRaw : RawRow := ⟨1, "Cozinha", false, "", "Bom", "", "86400"⟩

/-- A raw row whose timestamp does not parse. -/
def badRaw : RawRow := ⟨2, "Almox", true, "Sabao", "Bom", "", "ontem"⟩

/-- The normalized form of `goodRaw`. -/
def goodResp : SurveyResponse := ⟨1, "Cozinha", "Não", "", "Bom", "", 86400⟩

/-- A single concrete response used as a previously cached snapshot. -/
def exResp1 : SurveyResponse := mkResp 1 "Cozinha" "Sim" "Muito Bom" 0

/-- The filtered frame is one pandas boolean-mask selection. -/
theorem df_filtrado_eq_filter (df : List SurveyResponse) (spec : FilterSpec) :
    df_filtrado df spec = df.filter (fullPred spec) := by
  unfold df_filtrado fullPred
  by_cases h : spec.material_selecionado = "Todos"
  · rw [if_neg (by simp [h])]
    refine List.filter_congr fun r _ => ?_
    simp [h]
  · rw [if_pos h, List.filter_filter]
    refine List.filter_congr fun r _ => ?_
    have : (spec.material_selecionado == "Todos") = false := by
      simp [h]
    simp [this, Bool.and_comm]

/-- C6 counterexample: with one row previously cached, a failed store query makes
the reload return an empty frame that replaces the cached snapshot, and the
failure is indistinguishable from a successful empty query — no error value
reaches the caller. -/
theorem load_failure_cex :
    cache_after_reload [exResp1] (Except.error "db down") = []
    ∧ cache_after_reload [exResp1] (Except.error "db down") ≠ [exResp1]
    ∧ carregar_dados (Except.error "db down") = carregar_dados (Except.ok []) := by
  refine ⟨rfl, ?_, rfl⟩
  decide

/-- C6 amended: a store-query failure is caught inside `carregar_dados`,
reported only as a rendered message, and the load returns an empty frame; the
cache then holds that empty frame, discarding any previously held snapshot, and
the outcome equals that of a successful query returning no rows. -/
theorem load_failure_spec (e : String) (old : List SurveyResponse) :
    carregar_dados (Except.error e) = []
    ∧ cache_after_reload old (Except.error e) = []
    ∧ carregar_dados (Except.error e) = carregar_dados (Except.ok []) :=
  ⟨rfl, rfl, rfl⟩

/-- C7 counterexample: of two raw rows, the first normalizes and the second has
an unparsable timestamp; the claimed skip-and-continue policy would keep the
first row, but the load returns an empty frame — the row failure aborts the
whole load. -/
theorem row_failure_cex :
    normalizeRow badRaw = none
    ∧ normalizeRow goodRaw = some goodResp
    ∧ carregar_dados (Except.ok [goodRaw, badRaw]) = []
    ∧ List.filterMap normalizeRow [goodRaw, badRaw] = [goodResp]
    ∧ carregar_dados (Except.ok [goodRaw, badRaw]) ≠
        List.filterMap normalizeRow [goodRaw, badRaw] := by
  refine ⟨?_, ?_, ?_, ?_, ?_⟩ <;> decide

/-- C7 amended: row normalization failures are not skipped individually — if any
row's timestamp fails to parse, the whole column conversion raises and the load
returns an empty frame; when every row normalizes, the load keeps every row in
order. -/
theorem row_failure_spec (rows : List RawRow) :
    (normalizeAll rows = none → carregar_dados (Except.ok rows) = [])
    ∧ (∀ df, normalizeAll rows = some df → carregar_dados (Except.ok rows) = df) := by
  cases rows with
  | nil =>
    refine ⟨fun h => by simp [normalizeAll] at h, fun df h => ?_⟩
    simp only [normalizeAll, Option.some.injEq] at h
    simp [carregar_dados, ← h]
  | cons r rs =>
    constructor
    · intro h
      simp [carregar_dados, h]
    · intro df h
      simp [carregar_dados, h]

/-- C7 witness: on a list whose single row normalizes, the load keeps it. -/
theorem row_failure_spec_witness :
    normalizeAll [goodRaw] = some [goodResp]
    ∧ carregar_dados (Except.ok [goodRaw]) = [goodResp] :=
  ⟨by decide, (row_failure_spec [goodRaw]).2 [goodResp] (by decide)⟩

/-- C10: the filtered frame is a sublist of the input frame — every kept row is
unchanged and the relative order of rows is preserved. -/
theorem filtered_sublist (df : List SurveyResponse) (spec : FilterSpec) :
    (df_filtrado df spec).Sublist df := by
  rw [df_filtrado_eq_filter]
  exact List.filter_sublist df

/-- C8: the filtered result never exceeds the input in size, and filtering is
idempotent — re-applying the same `FilterSpec` to an already-filtered frame
changes nothing. -/
theorem filter_size_idempotent (df : List SurveyResponse) (spec : FilterSpec) :
    (df_filtrado df spec).length ≤ total_respostas df
    ∧ df_filtrado (df_filtrado df spec) spec = df_filtrado df spec := by
  constructor
  · rw [df_filtrado_eq_filter]
    exact List.length_filter_le _ df
  · rw [df_filtrado_eq_filter, df_filtrado_eq_filter, List.filter_filter]
    refine List.filter_congr fun r _ => ?_
    simp [Bool.and_self]

/-- The sector-and-quality filter spec used by the C1 witness. -/
def exSpec1 : FilterSpec := ⟨["Cozinha"], ["Muito Bom", "Bom", "Regular"], "Sim"⟩

/-- A spec with no sector selected. -/
def exSpecNoSector : FilterSpec := ⟨[], ["Muito Bom"], "Todos"⟩

/-- A spec with no quality selected. -/
def exSpecNoQuality : FilterSpec := ⟨["Cozinha"], [], "Todos"⟩

/-- C1: a row is in `df_filtrado df spec` iff it is a row of `df`, its sector is
among the selected sectors, its quality is among the selected qualities, and
either the material tri-state is `'Todos'` or the row's material-missing marker
equals the selected value; empty sector or quality selections give an empty
result. -/
theorem filter_engine_membership (df : List SurveyResponse) (spec : FilterSpec)
    (r : SurveyResponse) :
    (r ∈ df_filtrado df spec ↔
      r ∈ df ∧ r.setor ∈ spec.setores_selecionados ∧
        r.qualidade ∈ spec.qualidade_selecionada ∧
        (spec.material_selecionado = "Todos" ∨
          r.materialFaltando = spec.material_selecionado))
    ∧ (spec.setores_selecionados = [] → df_filtrado df spec = [])
    ∧ (spec.qualidade_selecionada = [] → df_filtrado df spec = []) := by
  have hmem : ∀ x : SurveyResponse, x ∈ df_filtrado df spec ↔
      x ∈ df ∧ x.setor ∈ spec.setores_selecionados ∧
        x.qualidade ∈ spec.qualidade_selecionada ∧
        (spec.material_selecionado = "Todos" ∨
          x.materialFaltando = spec.material_selecionado) := by
    intro x
    rw [df_filtrado_eq_filter, List.mem_filter, fullPred]
    simp only [Bool.and_eq_true, Bool.or_eq_true, decide_eq_true_eq, beq_iff_eq]
    tauto
  refine ⟨hmem r, ?_, ?_⟩
  · intro h
    rw [List.eq_nil_iff_forall_not_mem]
    intro x hx
    have := ((hmem x).mp hx).2.1
    rw [h] at this
    exact List.not_mem_nil _ this
  · intro h
    rw [List.eq_nil_iff_forall_not_mem]
    intro x hx
    have := ((hmem x).mp hx).2.2.1
    rw [h] at this
    exact List.not_mem_nil _ this

/-- C1 witness: the first example row passes the concrete filter, and the
empty-sector and empty-quality specs filter the example frame to nothing. -/
theorem filter_engine_membership_witness :
    exResp1 ∈ df_filtrado exDf10 exSpec1
    ∧ df_filtrado exDf10 exSpecNoSector = []
    ∧ df_filtrado exDf10 exSpecNoQuality = [] :=
  ⟨(filter_engine_membership exDf10 exSpec1 exResp1).1.mpr
      ⟨by decide, by decide, by decide, Or.inr (by decide)⟩,
    (filter_engine_membership exDf10 exSpecNoSector exResp1).2.1 rfl,
    (filter_engine_membership exDf10 exSpecNoQuality exResp1).2.2 rfl⟩

/-- C2: `material_faltando` counts exactly the rows carrying the true marker of
the material-missing boolean; the percentage is 0 on an empty frame and
otherwise, divided by 100, equals missing count over total; it always lies in
[0,1] after that normalization, and is total — no division error is possible. -/
theorem metrics_missing_spec (df : List SurveyResponse) :
    material_faltando df = (df.filter fun r => r.materialFaltando == "Sim").length
    ∧ (total_respostas df = 0 → percentual_falta df = 0)
    ∧ (0 < total_respostas df →
        percentual_falta df / 100 =
          (material_faltando df : ℚ) / (total_respostas df : ℚ))
    ∧ 0 ≤ percentual_falta df / 100 ∧ percentual_falta df / 100 ≤ 1 := by
  have hle : material_faltando df ≤ total_respostas df :=
    List.length_filter_le _ df
  have heq : 0 < total_respostas df →
      percentual_falta df / 100 =
        (material_faltando df : ℚ) / (total_respostas df : ℚ) := by
    intro h
    rw [percentual_falta, if_pos h, mul_div_assoc]
    norm_num
  refine ⟨rfl, ?_, heq, ?_, ?_⟩
  · intro h
    rw [percentual_falta, if_neg (by omega)]
  · rcases Nat.eq_zero_or_pos (total_respostas df) with h | h
    · rw [percentual_falta, if_neg (by omega)]
      norm_num
    · rw [heq h]
      positivity
  · rcases Nat.eq_zero_or_pos (total_respostas df) with h | h
    · rw [percentual_falta, if_neg (by omega)]
      norm_num
    · rw [heq h]
      rw [div_le_one (by exact_mod_cast h)]
      exact_mod_cast hle

/-- C2 witness: on the ten example rows, three of which report missing material,
the percentage is 30 and its normalized form is 3/10. -/
theorem metrics_missing_spec_witness :
    0 < total_respostas exDf10
    ∧ material_faltando exDf10 = 3
    ∧ percentual_falta exDf10 / 100 = (3 : ℚ) / 10 := by
  have h1 : material_faltando exDf10 = 3 := by decide
  have h2 : (0 : Nat) < total_respostas exDf10 := by decide
  refine ⟨h2, h1, ?_⟩
  rw [(metrics_missing_spec exDf10).2.2.1 h2, h1]
  norm_num [total_respostas, exDf10]

/-- C9: `satisfacao_boa` counts exactly the rows rated in the top two
enumeration levels, and the positive-satisfaction percentage, divided by 100,
equals that count over the total whenever the frame is nonempty. -/
theorem satisfacao_spec (df : List SurveyResponse) :
    satisfacao_boa df =
      (df.filter fun r => r.qualidade == "Muito Bom" || r.qualidade == "Bom").length
    ∧ (0 < total_respostas df →
        percentual_satisfacao df / 100 =
          (satisfacao_boa df : ℚ) / (total_respostas df : ℚ)) := by
  refine ⟨rfl, fun h => ?_⟩
  rw [percentual_satisfacao, if_pos h, mul_div_assoc]
  norm_num

/-- C9 witness: on the ten example rows six are rated `'Muito Bom'` or `'Bom'`,
giving a count of 6 and a percentage of 60. -/
theorem satisfacao_spec_witness :
    0 < total_respostas exDf10
    ∧ satisfacao_boa exDf10 = 6
    ∧ percentual_satisfacao exDf10 = 60 := by
  have h1 : satisfacao_boa exDf10 = 6 := by decide
  have h2 : (0 : Nat) < total_respostas exDf10 := by decide
  have h3 := (satisfacao_spec exDf10).2 h2
  refine ⟨h2, h1, ?_⟩
  rw [h1] at h3
  have ht : total_respostas exDf10 = 10 := by decide
  rw [ht] at h3
  have : percentual_satisfacao exDf10 / 100 = (6 : ℚ) / 10 := by
    exact_mod_cast h3
  field_simp at this
  linarith

/-- Helper: the sorted deduplication used by the cross-tab and group-by models
is sorted, duplicate-free, and contains exactly the values of the column. -/
theorem sortedDedup_spec {α : Type} [LinearOrder α] [DecidableEq α] (l : List α) :
    ((l.dedup).insertionSort (fun a b => a ≤ b)).Sorted (fun a b => a ≤ b)
    ∧ ((l.dedup).insertionSort (fun a b => a ≤ b)).Nodup
    ∧ ∀ x, x ∈ (l.dedup).insertionSort (fun a b => a ≤ b) ↔ x ∈ l := by
  refine ⟨List.sorted_insertionSort _ _, ?_, fun x => ?_⟩
  · exact ((List.perm_insertionSort _ _).nodup_iff).mpr (List.nodup_dedup l)
  · rw [List.mem_insertionSort, List.mem_dedup]

/-- C4 counterexample: on two concrete rows the cross-tab sector keys come out
in sorted order `["Almox", "Cozinha"]`, not in the first-seen order
`["Cozinha", "Almox"]`; and the quality keys come out alphabetically as
`["Bom", "Muito Bom"]` although `"Muito Bom"` has the lower enumeration rank. -/
theorem crosstab_order_cex :
    material_setor_rows exOrder = ["Almox", "Cozinha"]
    ∧ firstSeenKeys (exOrder.map fun r => r.setor) = ["Cozinha", "Almox"]
    ∧ material_setor_rows exOrder ≠ firstSeenKeys (exOrder.map fun r => r.setor)
    ∧ qualidade_setor_cols exOrder = ["Bom", "Muito Bom"]
    ∧ qualityRank "Muito Bom" < qualityRank "Bom" := by
  have hds : (exOrder.map fun r => r.setor).dedup = ["Cozinha", "Almox"] := by decide
  have hdq : (exOrder.map fun r => r.qualidade).dedup = ["Muito Bom", "Bom"] := by
    decide
  have h1 : material_setor_rows exOrder = ["Almox", "Cozinha"] := by
    simp only [material_setor_rows, crosstabKeys, hds]
    simp [List.insertionSort, List.orderedInsert]
    decide
  have h2 : firstSeenKeys (exOrder.map fun r => r.setor) = ["Cozinha", "Almox"] := by
    decide
  have h4 : qualidade_setor_cols exOrder = ["Bom", "Muito Bom"] := by
    simp only [qualidade_setor_cols, crosstabKeys, hdq]
    simp [List.insertionSort, List.orderedInsert]
    decide
  refine ⟨h1, h2, ?_, h4, by decide⟩
  rw [h1, h2]
  decide

/-- C4 amended: every cross-tab key set — sector rows and quality-rating columns
alike — is the set of distinct column values in ascending lexicographic order
(sorted and duplicate-free), not in first-seen order and not in
enumeration-rank order. -/
theorem crosstab_keys_sorted (df : List SurveyResponse) :
    (material_setor_rows df).Sorted (fun a b => a ≤ b)
    ∧ (material_setor_rows df).Nodup
    ∧ (∀ x, x ∈ material_setor_rows df ↔ x ∈ df.map fun r => r.setor)
    ∧ (qualidade_setor_cols df).Sorted (fun a b => a ≤ b)
    ∧ (qualidade_setor_cols df).Nodup
    ∧ ∀ x, x ∈ qualidade_setor_cols df ↔ x ∈ df.map fun r => r.qualidade := by
  obtain ⟨h1, h2, h3⟩ := sortedDedup_spec (df.map fun r => r.setor)
  obtain ⟨h4, h5, h6⟩ := sortedDedup_spec (df.map fun r => r.qualidade)
  exact ⟨h1, h2, h3, h4, h5, h6⟩

/-- Helper: summing an indicator over a duplicate-free list tests membership. -/
theorem sum_map_indicator {α : Type} [DecidableEq α] (a : α) :
    ∀ keys : List α, keys.Nodup →
      (keys.map fun d => if d = a then (1 : Nat) else 0).sum =
        if a ∈ keys then 1 else 0 := by
  intro keys
  induction keys with
  | nil => intro _; simp
  | cons k ks ih =>
    intro hnd
    rw [List.nodup_cons] at hnd
    rw [List.map_cons, List.sum_cons, ih hnd.2]
    by_cases hk : k = a
    · subst hk
      simp [hnd.1]
    · have hne : ¬a = k := fun h => hk h.symm
      simp [hk, hne, List.mem_cons]

/-- Helper: a pointwise sum of two maps splits. -/
theorem sum_map_add_nat {α : Type} (f g : α → Nat) :
    ∀ keys : List α, (keys.map fun d => f d + g d).sum =
      (keys.map f).sum + (keys.map g).sum := by
  intro keys
  induction keys with
  | nil => simp
  | cons k ks ih =>
    rw [List.map_cons, List.sum_cons, ih, List.map_cons, List.sum_cons,
      List.map_cons, List.sum_cons]
    omega

/-- Helper: the per-key counts of a list, summed over any duplicate-free key
list covering its values, give back its length. -/
theorem sum_map_count_eq_length {α : Type} [DecidableEq α] :
    ∀ l keys : List α, keys.Nodup → (∀ x ∈ l, x ∈ keys) →
      (keys.map fun d => l.count d).sum = l.length := by
  intro l
  induction l with
  | nil => intro keys _ _; simp
  | cons a t ih =>
    intro keys hnd hmem
    have h1 : (keys.map fun d => (a :: t).count d) =
        keys.map fun d => t.count d + if d = a then 1 else 0 := by
      refine List.map_congr_left fun d _ => ?_
      rw [List.count_cons]
      by_cases hda : d = a
      · simp [hda]
      · simp [hda, Ne.symm hda]
    rw [h1, sum_map_add_nat,
      ih keys hnd (fun x hx => hmem x (List.mem_cons_of_mem a hx)),
      sum_map_indicator a keys hnd, if_pos (hmem a (List.mem_cons_self a t))]
    simp

/-- C5: the daily series has strictly increasing dates with no duplicates, holds
exactly one (day, count) pair per distinct truncated day occurring in the data,
each with its exact occurrence count (so no zero-count day is synthesized), and
its counts sum to the total number of rows. -/
theorem daily_series_spec (df : List SurveyResponse) :
    ((respostas_diarias df).map Prod.fst).Sorted (fun a b => a < b)
    ∧ (∀ d c, (d, c) ∈ respostas_diarias df ↔
        d ∈ df.map data_dia ∧ c = (df.map data_dia).count d)
    ∧ (∀ p ∈ respostas_diarias df, 0 < p.2)
    ∧ ((respostas_diarias df).map Prod.snd).sum = total_respostas df := by
  obtain ⟨hs, hnd, hm⟩ := sortedDedup_spec (df.map data_dia)
  have hfst : (respostas_diarias df).map Prod.fst =
      ((df.map data_dia).dedup).insertionSort (fun a b => a ≤ b) := by
    rw [respostas_diarias, List.map_map]
    exact List.map_id _
  have hsnd : (respostas_diarias df).map Prod.snd =
      (((df.map data_dia).dedup).insertionSort (fun a b => a ≤ b)).map
        fun d => (df.map data_dia).count d := by
    rw [respostas_diarias, List.map_map]
    rfl
  refine ⟨?_, ?_, ?_, ?_⟩
  · rw [hfst]
    exact hs.lt_of_le hnd
  · intro d c
    rw [respostas_diarias, List.mem_map]
    constructor
    · rintro ⟨d', hd', heq⟩
      obtain ⟨rfl, rfl⟩ := Prod.mk.injEq .. |>.mp heq
      exact ⟨(hm d').mp hd', rfl⟩
    · rintro ⟨hd, rfl⟩
      exact ⟨d, (hm d).mpr hd, rfl⟩
  · intro p hp
    rw [respostas_diarias, List.mem_map] at hp
    obtain ⟨d', hd', rfl⟩ := hp
    have hdm : d' ∈ df.map data_dia := (hm d').mp hd'
    rcases Nat.eq_zero_or_pos ((df.map data_dia).count d') with h | h
    · exact absurd (List.count_eq_zero.mp h) (fun hc => hc hdm)
    · exact h
  · rw [hsnd, sum_map_count_eq_length _ _ hnd (fun x hx => (hm x).mpr hx),
      List.length_map]
    rfl

/-- C5 witness: on the ten example rows, day 0 appears with count 2, and the
daily counts sum to the total of 10. -/
theorem daily_series_spec_witness :
    (0, 2) ∈ respostas_diarias exDf10
    ∧ ((respostas_diarias exDf10).map Prod.snd).sum = 10 := by
  refine ⟨((daily_series_spec exDf10).2.1 0 2).mpr ⟨by decide, by decide⟩, ?_⟩
  exact ((daily_series_spec exDf10).2.2.2).trans (by decide)

/-- Helper: on a nonempty column, the first modal value returned by the mode
model occurs in the column, has maximal count, and is the lexicographically
least among the values tied for that count. -/
theorem series_mode_headD_spec (col : List String) (hne : col ≠ []) :
    (series_mode col).headD "N/A" ∈ col
    ∧ (∀ y ∈ col, col.count y ≤ col.count ((series_mode col).headD "N/A"))
    ∧ ∀ q ∈ col, col.count q = col.count ((series_mode col).headD "N/A") →
        (series_mode col).headD "N/A" ≤ q := by
  obtain ⟨hs, hnd, hm⟩ := sortedDedup_spec col
  obtain ⟨m, hmmem, hmmax⟩ :
      ∃ m ∈ col, ∀ y ∈ col, col.count y ≤ col.count m := by
    cases hma : col.argmax fun x => col.count x with
    | none => exact absurd (List.argmax_eq_none.mp hma) hne
    | some m =>
      have hmem : m ∈ col.argmax fun x => col.count x := by rw [hma]; rfl
      exact ⟨m, List.argmax_mem hmem, fun y hy => List.le_of_mem_argmax hy hmem⟩
  have hmins : m ∈ series_mode col := by
    rw [series_mode, List.mem_filter]
    refine ⟨(hm m).mpr hmmem, ?_⟩
    simpa using hmmax
  obtain ⟨v, tl, hvt⟩ : ∃ v tl, series_mode col = v :: tl := by
    cases hF : series_mode col with
    | nil => rw [hF] at hmins; exact absurd hmins (List.not_mem_nil m)
    | cons v tl => exact ⟨v, tl, rfl⟩
  have hhead : (series_mode col).headD "N/A" = v := by rw [hvt]; rfl
  have hvfil : v ∈ series_mode col := by
    rw [hvt]; exact List.mem_cons_self v tl
  rw [series_mode, List.mem_filter] at hvfil
  have hvcol : v ∈ col := (hm v).mp hvfil.1
  have hvmax : ∀ y ∈ col, col.count y ≤ col.count v := by
    have := hvfil.2
    simpa using this
  have hsorted_f : (series_mode col).Sorted fun a b => a ≤ b := by
    rw [series_mode]
    exact hs.filter _
  have hvleast : ∀ q ∈ col, col.count q = col.count v → v ≤ q := by
    intro q hq hcnt
    have hqfil : q ∈ series_mode col := by
      rw [series_mode, List.mem_filter]
      refine ⟨(hm q).mpr hq, ?_⟩
      simp only [decide_eq_true_eq]
      intro y hy
      rw [hcnt]
      exact hvmax y hy
    rw [hvt] at hqfil hsorted_f
    rcases List.mem_cons.mp hqfil with h | h
    · subst h; exact le_refl q
    · exact List.rel_of_sorted_cons hsorted_f q h
  rw [hhead]
  exact ⟨hvcol, hvmax, hvleast⟩

/-- C3 counterexample: on two filtered rows rated `'Muito Bom'` and `'Bom'` the
two ratings tie with count 1 each; `'Muito Bom'` has the lower enumeration rank,
yet the code reports `'Bom'` — `mode()` breaks ties by ascending string order,
not by enumeration rank. -/
theorem modal_rating_tiebreak_cex :
    media_qualidade exTie = "Bom"
    ∧ (exTie.map fun r => r.qualidade).count "Muito Bom" =
        (exTie.map fun r => r.qualidade).count "Bom"
    ∧ qualityRank "Muito Bom" < qualityRank "Bom"
    ∧ media_qualidade exTie ≠ "Muito Bom" := by
  have hcol : exTie.map (fun r => r.qualidade) = ["Muito Bom", "Bom"] := by decide
  have hd : (["Muito Bom", "Bom"] : List String).dedup = ["Muito Bom", "Bom"] := by
    decide
  have hsort : ((["Muito Bom", "Bom"] : List String).dedup).insertionSort
      (fun a b => a ≤ b) = ["Bom", "Muito Bom"] := by
    rw [hd]
    simp [List.insertionSort, List.orderedInsert]
    decide
  have hsm : series_mode ["Muito Bom", "Bom"] = ["Bom", "Muito Bom"] := by
    rw [series_mode, hsort]
    decide
  have hie : exTie.isEmpty = false := rfl
  have hmedia : media_qualidade exTie = "Bom" := by
    rw [media_qualidade, hcol, hsm]
    simp [hie]
  refine ⟨hmedia, by decide, by decide, ?_⟩
  rw [hmedia]
  decide

/-- C3 amended: on an empty filtered frame the reported modal rating is the
sentinel `"N/A"`; on a nonempty one it is a rating occurring in the frame with
maximal count, and among the ratings tied for the maximal count it is the
lexicographically smallest in ascending string order — not the one of lowest
enumeration rank. -/
theorem modal_rating_spec (dff : List SurveyResponse) :
    (dff = [] → media_qualidade dff = "N/A")
    ∧ (dff ≠ [] →
        media_qualidade dff ∈ dff.map (fun r => r.qualidade)
        ∧ (∀ q ∈ dff.map fun r => r.qualidade,
            (dff.map fun r => r.qualidade).count q ≤
              (dff.map fun r => r.qualidade).count (media_qualidade dff))
        ∧ ∀ q ∈ dff.map fun r => r.qualidade,
            (dff.map fun r => r.qualidade).count q =
              (dff.map fun r => r.qualidade).count (media_qualidade dff) →
            media_qualidade dff ≤ q) := by
  constructor
  · intro h; subst h; rfl
  · intro hne
    obtain ⟨d0, ds, rfl⟩ := List.exists_cons_of_ne_nil hne
    have hcne : (d0 :: ds).map (fun r => r.qualidade) ≠ [] := by
      simp
    have hmedia : media_qualidade (d0 :: ds) =
        (series_mode ((d0 :: ds).map fun r => r.qualidade)).headD "N/A" := by
      rw [media_qualidade]
      rfl
    rw [hmedia]
    exact series_mode_headD_spec _ hcne

/-- C3 witness for the amended claim: on the nonempty tie example the reported
rating occurs among the rows. -/
theorem modal_rating_spec_witness :
    exTie ≠ [] ∧ media_qualidade exTie ∈ exTie.map fun r => r.qualidade :=
  ⟨by decide, ((modal_rating_spec exTie).2 (by decide)).1⟩
